import Mathlib

/-!
Shallow embedding of the Mergington High School activities API and its
GenAI system-engineering façade.

The repository has two source files that matter here:

* `src/genai_system_engineering.py` — the `GenAISystemEngineer` class (a
  façade over the OpenAI chat-completions API) with five task methods:
  `analyze_requirements`, `generate_design`, `assess_risks`,
  `generate_test_cases`, `optimize_system`, plus the factory
  `create_genai_engineer`.
* `src/app.py` — the FastAPI adapter: in-memory `activities` store,
  `signup_for_activity`, `genai_status` and one endpoint per façade method.

Modelling conventions:

* The process environment is an association list of variable bindings;
  `os.getenv` is lookup.  Python truthiness of an optional string
  (`None` and `""` are falsy) is `truthy`.
* The external provider (`self.client.chat.completions.create` followed by
  `response.choices[0].message.content`) is an uninterpreted function from
  the issued request to `Except String String`: `Except.error e` stands for
  any exception raised during the call or response extraction (network
  failure, provider error, malformed response), carrying `str(e)`;
  `Except.ok s` stands for a returned text content `s`.
* `json.loads` on the provider text is an uninterpreted total function
  `String → Option Json`: `none` stands for `json.JSONDecodeError`.
* A façade method evaluates to a `MethodOutcome`: its `result` is
  `Except.ok r` when the Python method returns the dictionary `r`, and
  `Except.error e` when an uncaught Python exception escapes the method;
  `request` records the provider call issued during the invocation, if any.
* Dictionaries returned by the façade have a closed key set, so a Task
  Result is a record of `Option` fields, `none` meaning the key is absent.
-/

/-- Process environment: a finite list of variable bindings. -/
def Env : Type := List (String × String)

/-- Model of `os.getenv(k)`: the value of the first binding of `k`, if any. -/
def getenv (env : Env) (k : String) : Option String :=
  (env.find? (fun p => p.1 == k)).map (fun p => p.2)

/-- Model of `os.getenv(k, d)`: lookup with a default for an unset variable. -/
def getenvD (env : Env) (k d : String) : String :=
  (getenv env k).getD d

/-- Python truthiness of an optional string: `None` and `""` are falsy. -/
def truthy : Option String → Bool
  | none => false
  | some s => !(s == "")

/-- Whitespace stripped from both ends of a character list, as Python
`str.strip()` does inside `int()`. -/
def stripChars (cs : List Char) : List Char :=
  ((cs.dropWhile Char.isWhitespace).reverse.dropWhile Char.isWhitespace).reverse

/-- Model of Python `int(s)` on the strings relevant here: optional
surrounding whitespace, an optional sign, then a nonempty digit string;
anything else raises `ValueError`. -/
def pyInt (s : String) : Except String Int :=
  let (sign, digits) :=
    match stripChars s.data with
    | List.cons c rest =>
      if c = Char.ofNat 45 then ((-1 : Int), rest)
      else if c = Char.ofNat 43 then ((1 : Int), rest)
      else ((1 : Int), List.cons c rest)
    | List.nil => ((1 : Int), List.nil)
  if digits.length > 0 && digits.all Char.isDigit then
    Except.ok (sign * (digits.foldl (fun acc c => acc * 10 + (c.toNat - 48)) 0 : Nat))
  else
    Except.error ("invalid literal for int() with base 10: \x27" ++ s ++ "\x27")

/-- JSON values, as produced by `json.loads` / consumed by `json.dumps`. -/
inductive Json where
  | null : Json
  | bool (b : Bool) : Json
  | num (n : Int) : Json
  | str (s : String) : Json
  | arr (elems : List Json) : Json
  | obj (fields : List (String × Json)) : Json

mutual

/-- Serialization of a JSON value, modelling the text `json.dumps` produces
up to whitespace details (the exact text only feeds a prompt template). -/
def Json.render : Json → String
  | .null => "null"
  | .bool true => "true"
  | .bool false => "false"
  | .num n => toString n
  | .str s => "\"" ++ s ++ "\""
  | .arr elems => "[" ++ Json.renderList elems ++ "]"
  | .obj fields => "\x7b" ++ Json.renderFields fields ++ "\x7d"

/-- Renders the elements of a JSON array, comma separated. -/
def Json.renderList : List Json → String
  | [] => ""
  | [j] => Json.render j
  | j :: rest => Json.render j ++ ", " ++ Json.renderList rest

/-- Renders the fields of a JSON object, comma separated. -/
def Json.renderFields : List (String × Json) → String
  | [] => ""
  | [(k, j)] => "\"" ++ k ++ "\": " ++ Json.render j
  | (k, j) :: rest => "\"" ++ k ++ "\": " ++ Json.render j ++ ", " ++ Json.renderFields rest

end

/-- Values of the `system_config: Dict[str, Any]` argument of
`optimize_system`: either a JSON-serializable value, or a Python `set`
(the representative non-JSON-serializable value; `json.dumps` raises
`TypeError` on it). -/
inductive PyVal where
  | json (j : Json) : PyVal
  | pyset (elems : List Json) : PyVal

/-- Whether a configuration value survives `json.dumps`. -/
def PyVal.serializable : PyVal → Bool
  | .json _ => true
  | .pyset _ => false

/-- Whether every value of a configuration mapping is JSON-serializable. -/
def configSerializable (config : List (String × PyVal)) : Bool :=
  config.all (fun p => p.2.serializable)

/-- Model of `json.dumps(system_config, indent=2)`: the rendered object when
every value is serializable, and a raised `TypeError` otherwise. -/
def jsonDumps (config : List (String × PyVal)) : Except String String :=
  if configSerializable config then
    Except.ok (Json.render (Json.obj (config.map (fun p =>
      (p.1, match p.2 with | .json j => j | .pyset _ => Json.null)))))
  else
    Except.error "Object of type set is not JSON serializable"

/-- Value bound to the `analysis` key of a successful requirements analysis:
either the JSON parse of the provider text or the raw text itself. -/
inductive AnalysisVal where
  | parsed (j : Json) : AnalysisVal
  | text (s : String) : AnalysisVal

/-- A façade Task Result dictionary.  The façade only ever emits the keys
below; a field is `none` when the key is absent from the dictionary. -/
structure TaskResult where
  status : String
  message : Option String
  analysis : Option AnalysisVal
  raw_response : Option String
  design : Option String
  design_type : Option String
  assessment : Option String
  test_cases : Option String
  test_type : Option String
  optimizations : Option String
  optimization_goal : Option String

/-- A Task Result carrying only a `status` key. -/
def TaskResult.base (status : String) : TaskResult :=
  ⟨status, none, none, none, none, none, none, none, none, none, none⟩

/-- The fixed guidance message of every disabled Task Result. -/
def disabledMessage : String := "GenAI is not configured. Please set OPENAI_API_KEY."

/-- The Task Result every task method returns when the façade is disabled. -/
def disabledResult : TaskResult :=
  { TaskResult.base "disabled" with message := some disabledMessage }

/-- The Task Result built in a task method's `except` clause: `context` is
the task-specific message prefix and `e` the exception description. -/
def errorResult (context e : String) : TaskResult :=
  { TaskResult.base "error" with message := some (context ++ e) }

/-- The argument bundle of one `self.client.chat.completions.create` call:
the model, temperature and max-token budget passed, and the contents of the
system and user messages. -/
structure ProviderRequest where
  model : String
  temperature : String
  max_tokens : Int
  system_content : String
  user_content : String
  deriving DecidableEq

/-- The external provider, uninterpreted: maps the issued request to either
the returned text content or the description of a raised exception. -/
def ProviderCall : Type := ProviderRequest → Except String String

/-- Outcome of one façade method invocation.  `result` is `Except.ok r` when
the Python method returns the dictionary `r` and `Except.error e` when an
uncaught exception escapes the method; `request` is the provider call issued
during the invocation, if one was. -/
structure MethodOutcome where
  result : Except String TaskResult
  request : Option ProviderRequest

/-- The `GenAISystemEngineer` instance state, as set by `__init__` and never
assigned to afterwards.  `client` records whether an `OpenAI` client object
was constructed; `temperature` keeps the textual form of the configured
sampling temperature. -/
structure GenAISystemEngineer where
  api_key : Option String
  model : String
  temperature : String
  client : Bool
  enabled : Bool

/-- Model of `GenAISystemEngineer.__init__(api_key)`: the key is the given
argument if truthy, else `os.getenv("OPENAI_API_KEY")`; model and temperature
come from the environment with defaults `"gpt-4"` and `"0.7"`; the client is
constructed and the façade enabled exactly when the `openai` library imported
and the key is truthy. -/
def GenAISystemEngineer.init (openai_available : Bool) (env : Env)
    (api_key : Option String) : GenAISystemEngineer :=
  let key := if truthy api_key then api_key else getenv env "OPENAI_API_KEY"
  let flag := openai_available && truthy key
  { api_key := key
  , model := getenvD env "OPENAI_MODEL" "gpt-4"
  , temperature := getenvD env "OPENAI_TEMPERATURE" "0.7"
  , client := flag
  , enabled := flag }

/-- Model of `is_enabled`. -/
def GenAISystemEngineer.is_enabled (self : GenAISystemEngineer) : Bool :=
  self.enabled

/-- Model of the factory `create_genai_engineer(api_key)`. -/
def create_genai_engineer (openai_available : Bool) (env : Env)
    (api_key : Option String) : GenAISystemEngineer :=
  GenAISystemEngineer.init openai_available env api_key

/-- Model of `int(os.getenv("GENAI_MAX_TOKENS", "2000"))`, evaluated inside
the `try` block of each task method at call time. -/
def genaiMaxTokens (env : Env) : Except String Int :=
  pyInt (getenvD env "GENAI_MAX_TOKENS" "2000")

/-- The `analyze_requirements` prompt f-string. -/
def analyzePrompt (requirements_text : String) : String :=
  "\n        As a system engineering expert, analyze the following requirements:\n        \n        " ++ requirements_text ++ "\n        \n        Provide:\n        1. Clarity assessment (are requirements clear and unambiguous?)\n        2. Completeness check (are there any gaps?)\n        3. Testability evaluation (can these be tested?)\n        4. Potential conflicts or contradictions\n        5. Suggestions for improvement\n        \n        Format your response as JSON with keys: clarity, completeness, testability, conflicts, suggestions\n        "

/-- The `generate_design` prompt f-string. -/
def designPrompt (specifications design_type : String) : String :=
  "\n        Based on the following specifications, generate a " ++ design_type ++ " design:\n        \n        " ++ specifications ++ "\n        \n        Provide:\n        1. Overall design approach\n        2. Key components and their responsibilities\n        3. Interface definitions\n        4. Data flow\n        5. Technology recommendations\n        \n        Format as a detailed design document.\n        "

/-- The `assess_risks` prompt f-string. -/
def risksPrompt (system_description : String) : String :=
  "\n        Perform a risk assessment for the following system:\n        \n        " ++ system_description ++ "\n        \n        Identify:\n        1. Technical risks\n        2. Security risks\n        3. Performance risks\n        4. Operational risks\n        5. Mitigation strategies for each risk\n        \n        Rate each risk as: Critical, High, Medium, or Low\n        "

/-- The `generate_test_cases` prompt f-string. -/
def testCasesPrompt (requirements test_type : String) : String :=
  "\n        Generate " ++ test_type ++ " test cases for the following requirements:\n        \n        " ++ requirements ++ "\n        \n        For each test case provide:\n        1. Test ID\n        2. Test description\n        3. Preconditions\n        4. Test steps\n        5. Expected results\n        6. Priority (High/Medium/Low)\n        \n        Format as a structured list.\n        "

/-- The `optimize_system` prompt f-string (over the already-serialized
configuration). -/
def optimizePrompt (config_str optimization_goal : String) : String :=
  "\n        Analyze this system configuration and suggest optimizations for " ++ optimization_goal ++ ":\n        \n        " ++ config_str ++ "\n        \n        Provide:\n        1. Current bottlenecks or inefficiencies\n        2. Specific optimization recommendations\n        3. Expected impact of each recommendation\n        4. Implementation complexity (Easy/Medium/Hard)\n        5. Potential trade-offs\n        "

/-- The provider request `analyze_requirements` issues when enabled. -/
def GenAISystemEngineer.analyzeRequest (self : GenAISystemEngineer) (mt : Int)
    (requirements_text : String) : ProviderRequest :=
  ⟨self.model, self.temperature, mt, "You are a system engineering expert.",
   analyzePrompt requirements_text⟩

/-- The provider request `generate_design` issues when enabled. -/
def GenAISystemEngineer.designRequest (self : GenAISystemEngineer) (mt : Int)
    (specifications design_type : String) : ProviderRequest :=
  ⟨self.model, self.temperature, mt, "You are an expert system designer.",
   designPrompt specifications design_type⟩

/-- The provider request `assess_risks` issues when enabled. -/
def GenAISystemEngineer.risksRequest (self : GenAISystemEngineer) (mt : Int)
    (system_description : String) : ProviderRequest :=
  ⟨self.model, self.temperature, mt, "You are a risk assessment expert.",
   risksPrompt system_description⟩

/-- The provider request `generate_test_cases` issues when enabled. -/
def GenAISystemEngineer.testCasesRequest (self : GenAISystemEngineer) (mt : Int)
    (requirements test_type : String) : ProviderRequest :=
  ⟨self.model, self.temperature, mt, "You are a test engineering expert.",
   testCasesPrompt requirements test_type⟩

/-- The provider request `optimize_system` issues when enabled. -/
def GenAISystemEngineer.optimizeRequest (self : GenAISystemEngineer) (mt : Int)
    (config_str optimization_goal : String) : ProviderRequest :=
  ⟨self.model, self.temperature, mt, "You are a system optimization expert.",
   optimizePrompt config_str optimization_goal⟩

/-- Model of `analyze_requirements`: disabled short-circuit; otherwise the
`try` block evaluates the max-token budget, issues the provider call, then
attempts `json.loads` on the text, falling back to the raw text on a
`JSONDecodeError`; any other exception becomes an `error` Task Result. -/
def GenAISystemEngineer.analyze_requirements (self : GenAISystemEngineer)
    (env : Env) (provider : ProviderCall) (jsonLoads : String → Option Json)
    (requirements_text : String) : MethodOutcome :=
  if !self.is_enabled then
    { result := Except.ok disabledResult, request := none }
  else
    match genaiMaxTokens env with
    | .error e =>
      { result := Except.ok (errorResult "Error during analysis: " e), request := none }
    | .ok mt =>
      match provider (self.analyzeRequest mt requirements_text) with
      | .error e =>
        { result := Except.ok (errorResult "Error during analysis: " e)
        , request := some (self.analyzeRequest mt requirements_text) }
      | .ok result =>
        match jsonLoads result with
        | some parsed =>
          { result := Except.ok { TaskResult.base "success" with
              analysis := some (.parsed parsed), raw_response := some result }
          , request := some (self.analyzeRequest mt requirements_text) }
        | none =>
          { result := Except.ok { TaskResult.base "success" with
              analysis := some (.text result), raw_response := some result }
          , request := some (self.analyzeRequest mt requirements_text) }

/-- Model of `generate_design`. -/
def GenAISystemEngineer.generate_design (self : GenAISystemEngineer)
    (env : Env) (provider : ProviderCall)
    (specifications design_type : String) : MethodOutcome :=
  if !self.is_enabled then
    { result := Except.ok disabledResult, request := none }
  else
    match genaiMaxTokens env with
    | .error e =>
      { result := Except.ok (errorResult "Error during design generation: " e), request := none }
    | .ok mt =>
      match provider (self.designRequest mt specifications design_type) with
      | .error e =>
        { result := Except.ok (errorResult "Error during design generation: " e)
        , request := some (self.designRequest mt specifications design_type) }
      | .ok content =>
        { result := Except.ok { TaskResult.base "success" with
            design := some content, design_type := some design_type }
        , request := some (self.designRequest mt specifications design_type) }

/-- Model of `generate_design(specifications)` with the `design_type`
parameter left to its Python default `"architecture"`. -/
def GenAISystemEngineer.generate_design_default (self : GenAISystemEngineer)
    (env : Env) (provider : ProviderCall) (specifications : String) : MethodOutcome :=
  self.generate_design env provider specifications "architecture"

/-- Model of `assess_risks`. -/
def GenAISystemEngineer.assess_risks (self : GenAISystemEngineer)
    (env : Env) (provider : ProviderCall)
    (system_description : String) : MethodOutcome :=
  if !self.is_enabled then
    { result := Except.ok disabledResult, request := none }
  else
    match genaiMaxTokens env with
    | .error e =>
      { result := Except.ok (errorResult "Error during risk assessment: " e), request := none }
    | .ok mt =>
      match provider (self.risksRequest mt system_description) with
      | .error e =>
        { result := Except.ok (errorResult "Error during risk assessment: " e)
        , request := some (self.risksRequest mt system_description) }
      | .ok content =>
        { result := Except.ok { TaskResult.base "success" with
            assessment := some content }
        , request := some (self.risksRequest mt system_description) }

/-- Model of `generate_test_cases`. -/
def GenAISystemEngineer.generate_test_cases (self : GenAISystemEngineer)
    (env : Env) (provider : ProviderCall)
    (requirements test_type : String) : MethodOutcome :=
  if !self.is_enabled then
    { result := Except.ok disabledResult, request := none }
  else
    match genaiMaxTokens env with
    | .error e =>
      { result := Except.ok (errorResult "Error during test case generation: " e), request := none }
    | .ok mt =>
      match provider (self.testCasesRequest mt requirements test_type) with
      | .error e =>
        { result := Except.ok (errorResult "Error during test case generation: " e)
        , request := some (self.testCasesRequest mt requirements test_type) }
      | .ok content =>
        { result := Except.ok { TaskResult.base "success" with
            test_cases := some content, test_type := some test_type }
        , request := some (self.testCasesRequest mt requirements test_type) }

/-- Model of `optimize_system`.  Note that
`config_str = json.dumps(system_config, indent=2)` is evaluated BEFORE the
`try` block, so a `TypeError` raised there escapes the method
(`result := Except.error …`); everything inside the `try` is absorbed. -/
def GenAISystemEngineer.optimize_system (self : GenAISystemEngineer)
    (env : Env) (provider : ProviderCall)
    (system_config : List (String × PyVal)) (optimization_goal : String) : MethodOutcome :=
  if !self.is_enabled then
    { result := Except.ok disabledResult, request := none }
  else
    match jsonDumps system_config with
    | .error e =>
      { result := Except.error ("TypeError: " ++ e), request := none }
    | .ok config_str =>
      match genaiMaxTokens env with
      | .error e =>
        { result := Except.ok (errorResult "Error during optimization: " e), request := none }
      | .ok mt =>
        match provider (self.optimizeRequest mt config_str optimization_goal) with
        | .error e =>
          { result := Except.ok (errorResult "Error during optimization: " e)
          , request := some (self.optimizeRequest mt config_str optimization_goal) }
        | .ok content =>
          { result := Except.ok { TaskResult.base "success" with
              optimizations := some content, optimization_goal := some optimization_goal }
          , request := some (self.optimizeRequest mt config_str optimization_goal) }

/-- An activity record of the in-memory store in `app.py`. -/
structure Activity where
  description : String
  schedule : String
  max_participants : Nat
  participants : List String

/-- The seeded in-memory activity database of `app.py`. -/
def activities : List (String × Activity) :=
  [ ("Chess Club",
     ⟨"Learn strategies and compete in chess tournaments",
      "Fridays, 3:30 PM - 5:00 PM", 12,
      ["michael@mergington.edu", "daniel@mergington.edu"]⟩)
  , ("Programming Class",
     ⟨"Learn programming fundamentals and build software projects",
      "Tuesdays and Thursdays, 3:30 PM - 4:30 PM", 20,
      ["emma@mergington.edu", "sophia@mergington.edu"]⟩)
  , ("Gym Class",
     ⟨"Physical education and sports activities",
      "Mondays, Wednesdays, Fridays, 2:00 PM - 3:00 PM", 30,
      ["john@mergington.edu", "olivia@mergington.edu"]⟩) ]

/-- Dictionary lookup `activities[name]` (keys are unique in a Python dict,
so first match suffices). -/
def lookupActivity (acts : List (String × Activity)) (name : String) : Option Activity :=
  (acts.find? (fun p => p.1 == name)).map (fun p => p.2)

/-- Replacing the entry of `name` in the store, modelling the in-place
mutation `activity["participants"].append(email)` of the dictionary value. -/
def updateActivity (acts : List (String × Activity)) (name : String)
    (a : Activity) : List (String × Activity) :=
  acts.map (fun p => if p.1 == name then (p.1, a) else p)

/-- Model of `GET /activities`: returns the store verbatim. -/
def get_activities (acts : List (String × Activity)) : List (String × Activity) :=
  acts

/-- HTTP outcome of the signup endpoint. -/
inductive SignupResponse where
  | ok (message : String) : SignupResponse
  | httpError (code : Nat) (detail : String) : SignupResponse

/-- Model of `POST /activities/{activity_name}/signup`: 404 when the key is
absent, otherwise append the email to the activity's participants.  Returns
the response together with the store after the call. -/
def signup_for_activity (acts : List (String × Activity))
    (activity_name email : String) : SignupResponse × List (String × Activity) :=
  match lookupActivity acts activity_name with
  | none => (.httpError 404 "Activity not found", acts)
  | some activity =>
    (.ok ("Signed up " ++ email ++ " for " ++ activity_name),
     updateActivity acts activity_name
       { activity with participants := activity.participants ++ [email] })

/-- Body of the `GET /genai/status` response; `model` is `none` when the
`model` key is absent. -/
structure StatusBody where
  enabled : Bool
  message : String
  model : Option String

/-- Model of `GET /genai/status`: branches on module availability, then on
the façade instance and its `is_enabled()`. -/
def genai_status (genai_available : Bool)
    (genai_engineer : Option GenAISystemEngineer) : StatusBody :=
  if !genai_available then
    ⟨false, "GenAI module is not available. Install required dependencies.", none⟩
  else
    match genai_engineer with
    | some e =>
      if e.is_enabled then
        ⟨true, "GenAI System Engineering is ready", some e.model⟩
      else
        ⟨false, "GenAI is not configured. Please set OPENAI_API_KEY environment variable.", none⟩
    | none =>
      ⟨false, "GenAI is not configured. Please set OPENAI_API_KEY environment variable.", none⟩

/-- HTTP outcome of a GenAI task endpoint: a 200 whose body is the façade's
Task Result, or an HTTPException / unhandled-exception error response. -/
inductive TaskHttpResponse where
  | ok (body : TaskResult) : TaskHttpResponse
  | httpError (code : Nat) (detail : String) : TaskHttpResponse

/-- Outcome of one task-endpoint invocation; `facadeInvoked` records whether
a façade method was called during the request. -/
structure EndpointOutcome where
  response : TaskHttpResponse
  facadeInvoked : Bool

/-- The fixed 503 outcome raised when `GENAI_AVAILABLE` is false or the
façade instance is `None`. -/
def unavailableOutcome : EndpointOutcome :=
  ⟨.httpError 503 "GenAI functionality is not available", false⟩

/-- Relays a façade method outcome as the endpoint's response: a returned
dictionary becomes the 200 body verbatim; an exception escaping the façade
method would surface as the framework's 500 response. -/
def relay (o : MethodOutcome) : EndpointOutcome :=
  match o.result with
  | .ok r => ⟨.ok r, true⟩
  | .error e => ⟨.httpError 500 e, true⟩

namespace App

/-- Model of `POST /genai/analyze-requirements`. -/
def analyze_requirements (genai_available : Bool)
    (genai_engineer : Option GenAISystemEngineer) (env : Env)
    (provider : ProviderCall) (jsonLoads : String → Option Json)
    (requirements_text : String) : EndpointOutcome :=
  match genai_available, genai_engineer with
  | true, some e => relay (e.analyze_requirements env provider jsonLoads requirements_text)
  | _, _ => unavailableOutcome

/-- Model of `POST /genai/generate-design` (validation has already applied
the request-model default for `design_type`). -/
def generate_design (genai_available : Bool)
    (genai_engineer : Option GenAISystemEngineer) (env : Env)
    (provider : ProviderCall) (specifications design_type : String) : EndpointOutcome :=
  match genai_available, genai_engineer with
  | true, some e => relay (e.generate_design env provider specifications design_type)
  | _, _ => unavailableOutcome

/-- Model of `POST /genai/assess-risks`. -/
def assess_risks (genai_available : Bool)
    (genai_engineer : Option GenAISystemEngineer) (env : Env)
    (provider : ProviderCall) (system_description : String) : EndpointOutcome :=
  match genai_available, genai_engineer with
  | true, some e => relay (e.assess_risks env provider system_description)
  | _, _ => unavailableOutcome

/-- Model of `POST /genai/generate-test-cases`. -/
def generate_test_cases (genai_available : Bool)
    (genai_engineer : Option GenAISystemEngineer) (env : Env)
    (provider : ProviderCall) (requirements test_type : String) : EndpointOutcome :=
  match genai_available, genai_engineer with
  | true, some e => relay (e.generate_test_cases env provider requirements test_type)
  | _, _ => unavailableOutcome

/-- Model of `POST /genai/optimize-system`.  The request body is decoded
from JSON, so every configuration value arriving here is a `Json` value;
it is handed to the façade as a (serializable) Python mapping. -/
def optimize_system (genai_available : Bool)
    (genai_engineer : Option GenAISystemEngineer) (env : Env)
    (provider : ProviderCall) (system_config : List (String × Json))
    (optimization_goal : String) : EndpointOutcome :=
  match genai_available, genai_engineer with
  | true, some e =>
    relay (e.optimize_system env provider
      (system_config.map (fun p => (p.1, PyVal.json p.2))) optimization_goal)
  | _, _ => unavailableOutcome

end App

/-- The module-level state `app.py` builds at import time: `GENAI_AVAILABLE`
from the import attempt, and `genai_engineer = create_genai_engineer()`
(no explicit key) when the import succeeded, `None` otherwise. -/
structure AppState where
  genai_available : Bool
  genai_engineer : Option GenAISystemEngineer

/-- Model of `app.py` module initialization. -/
def initApp (import_ok openai_available : Bool) (env : Env) : AppState :=
  { genai_available := import_ok
  , genai_engineer :=
      if import_ok then some (create_genai_engineer openai_available env none) else none }

/-- Whether a method outcome is a normal Python return (no escaped exception). -/
def Except.okBool : Except String TaskResult → Bool
  | .ok _ => true
  | .error _ => false

/-- A Task Result with none of the success payload keys present. -/
def successPayloadFree (r : TaskResult) : Prop :=
  r.analysis = none ∧ r.raw_response = none ∧ r.design = none ∧ r.design_type = none ∧
  r.assessment = none ∧ r.test_cases = none ∧ r.test_type = none ∧
  r.optimizations = none ∧ r.optimization_goal = none

/-- The Task Result shape invariant of the spec: status ranges over the
three-state taxonomy, success carries no failure message, and the two
non-success states carry no success payload. -/
def TaskResultWF (r : TaskResult) : Prop :=
  (r.status = "disabled" ∨ r.status = "error" ∨ r.status = "success") ∧
  (r.status = "success" → r.message = none) ∧
  ((r.status = "disabled" ∨ r.status = "error") → successPayloadFree r)

theorem taskResultWF_disabled : TaskResultWF disabledResult := by
  refine ⟨Or.inl rfl, ?_, ?_⟩
  · intro h
    have h2 : "disabled" = "success" := h
    exact absurd h2 (by decide)
  · intro _
    exact ⟨rfl, rfl, rfl, rfl, rfl, rfl, rfl, rfl, rfl⟩

theorem taskResultWF_error (c m : String) : TaskResultWF (errorResult c m) := by
  refine ⟨Or.inr (Or.inl rfl), ?_, ?_⟩
  · intro h
    have h2 : "error" = "success" := h
    exact absurd h2 (by decide)
  · intro _
    exact ⟨rfl, rfl, rfl, rfl, rfl, rfl, rfl, rfl, rfl⟩

theorem taskResultWF_success (r : TaskResult) (h1 : r.status = "success")
    (h2 : r.message = none) : TaskResultWF r := by
  refine ⟨Or.inr (Or.inr h1), fun _ => h2, ?_⟩
  intro hc
  rw [h1] at hc
  rcases hc with hc | hc <;> exact absurd hc (by decide)

/-- A construction environment holding only a (valid-looking) API key. -/
def keyedEnv : Env := [("OPENAI_API_KEY", "test-key")]

/-- A façade built with a key in the environment: enabled. -/
def enabledEngineer : GenAISystemEngineer :=
  GenAISystemEngineer.init true keyedEnv none

/-- A façade built with the library importable but no key anywhere: disabled. -/
def disabledEngineer : GenAISystemEngineer :=
  GenAISystemEngineer.init true [] none

/-- A provider behavior that always returns the text `"model output"`. -/
def echoProvider : ProviderCall := fun _ => Except.ok "model output"

/-- A `json.loads` behavior that always raises `JSONDecodeError`. -/
def noParse : String → Option Json := fun _ => none

/-- A `json.loads` behavior that always parses, returning JSON `null`. -/
def yesParse : String → Option Json := fun _ => some Json.null

theorem init_disabled (oa : Bool) (cenv : Env) (key : Option String)
    (h : oa = false ∨ (truthy key = false ∧ truthy (getenv cenv "OPENAI_API_KEY") = false)) :
    (GenAISystemEngineer.init oa cenv key).enabled = false := by
  rcases h with h | ⟨h1, h2⟩
  · simp [GenAISystemEngineer.init, h]
  · simp [GenAISystemEngineer.init, h1, h2]

theorem disabled_outcomes (e : GenAISystemEngineer) (h : e.enabled = false)
    (env : Env) (provider : ProviderCall) (jsonLoads : String → Option Json)
    (txt spc dsn sys rq ttyp goal : String) (config : List (String × PyVal)) :
    e.analyze_requirements env provider jsonLoads txt = ⟨Except.ok disabledResult, none⟩ ∧
    e.generate_design env provider spc dsn = ⟨Except.ok disabledResult, none⟩ ∧
    e.assess_risks env provider sys = ⟨Except.ok disabledResult, none⟩ ∧
    e.generate_test_cases env provider rq ttyp = ⟨Except.ok disabledResult, none⟩ ∧
    e.optimize_system env provider config goal = ⟨Except.ok disabledResult, none⟩ := by
  refine ⟨?_, ?_, ?_, ?_, ?_⟩ <;>
    simp [GenAISystemEngineer.analyze_requirements, GenAISystemEngineer.generate_design,
      GenAISystemEngineer.assess_risks, GenAISystemEngineer.generate_test_cases,
      GenAISystemEngineer.optimize_system, GenAISystemEngineer.is_enabled, h]

/-- C3: a façade constructed without a usable credential (no truthy key
argument and no truthy `OPENAI_API_KEY` in the construction environment, or
the `openai` library unavailable) has every one of the five task methods
return exactly the `disabled` Task Result — only a `status` and the fixed
guidance `message`, no other keys — and issue no provider call. -/
theorem C3_disabled_short_circuit (oa : Bool) (cenv env : Env) (key : Option String)
    (provider : ProviderCall) (jsonLoads : String → Option Json)
    (txt spc dsn sys rq ttyp goal : String) (config : List (String × PyVal))
    (h : oa = false ∨ (truthy key = false ∧ truthy (getenv cenv "OPENAI_API_KEY") = false)) :
    ((GenAISystemEngineer.init oa cenv key).analyze_requirements env provider jsonLoads txt
        = ⟨Except.ok disabledResult, none⟩ ∧
     (GenAISystemEngineer.init oa cenv key).generate_design env provider spc dsn
        = ⟨Except.ok disabledResult, none⟩ ∧
     (GenAISystemEngineer.init oa cenv key).assess_risks env provider sys
        = ⟨Except.ok disabledResult, none⟩ ∧
     (GenAISystemEngineer.init oa cenv key).generate_test_cases env provider rq ttyp
        = ⟨Except.ok disabledResult, none⟩ ∧
     (GenAISystemEngineer.init oa cenv key).optimize_system env provider config goal
        = ⟨Except.ok disabledResult, none⟩) ∧
    disabledResult =
      { status := "disabled", message := some disabledMessage, analysis := none,
        raw_response := none, design := none, design_type := none, assessment := none,
        test_cases := none, test_type := none, optimizations := none,
        optimization_goal := none } :=
  ⟨disabled_outcomes _ (init_disabled oa cenv key h) env provider jsonLoads
      txt spc dsn sys rq ttyp goal config, rfl⟩

/-- Witness for C3 at a concrete disabled façade (library unavailable). -/
theorem C3_disabled_short_circuit_witness :
    (((GenAISystemEngineer.init false [] none).analyze_requirements [] echoProvider noParse "x"
        = ⟨Except.ok disabledResult, none⟩ ∧
      (GenAISystemEngineer.init false [] none).generate_design [] echoProvider "s" "d"
        = ⟨Except.ok disabledResult, none⟩ ∧
      (GenAISystemEngineer.init false [] none).assess_risks [] echoProvider "y"
        = ⟨Except.ok disabledResult, none⟩ ∧
      (GenAISystemEngineer.init false [] none).generate_test_cases [] echoProvider "r" "t"
        = ⟨Except.ok disabledResult, none⟩ ∧
      (GenAISystemEngineer.init false [] none).optimize_system [] echoProvider [] "g"
        = ⟨Except.ok disabledResult, none⟩) ∧
     disabledResult =
      { status := "disabled", message := some disabledMessage, analysis := none,
        raw_response := none, design := none, design_type := none, assessment := none,
        test_cases := none, test_type := none, optimizations := none,
        optimization_goal := none }) :=
  C3_disabled_short_circuit false [] [] none echoProvider noParse
    "x" "s" "d" "y" "r" "t" "g" [] (Or.inl rfl)

theorem analyze_no_raise (e : GenAISystemEngineer) (env : Env) (provider : ProviderCall)
    (jsonLoads : String → Option Json) (txt : String) :
    (e.analyze_requirements env provider jsonLoads txt).result.okBool = true := by
  unfold GenAISystemEngineer.analyze_requirements
  split
  · rfl
  · split
    · rfl
    · split
      · rfl
      · split <;> rfl

theorem design_no_raise (e : GenAISystemEngineer) (env : Env) (provider : ProviderCall)
    (spc dsn : String) :
    (e.generate_design env provider spc dsn).result.okBool = true := by
  unfold GenAISystemEngineer.generate_design
  split
  · rfl
  · split
    · rfl
    · split <;> rfl

theorem risks_no_raise (e : GenAISystemEngineer) (env : Env) (provider : ProviderCall)
    (sys : String) :
    (e.assess_risks env provider sys).result.okBool = true := by
  unfold GenAISystemEngineer.assess_risks
  split
  · rfl
  · split
    · rfl
    · split <;> rfl

theorem tests_no_raise (e : GenAISystemEngineer) (env : Env) (provider : ProviderCall)
    (rq ttyp : String) :
    (e.generate_test_cases env provider rq ttyp).result.okBool = true := by
  unfold GenAISystemEngineer.generate_test_cases
  split
  · rfl
  · split
    · rfl
    · split <;> rfl

theorem optimize_no_raise (e : GenAISystemEngineer) (env : Env) (provider : ProviderCall)
    (config : List (String × PyVal)) (goal : String)
    (h : configSerializable config = true) :
    (e.optimize_system env provider config goal).result.okBool = true := by
  unfold GenAISystemEngineer.optimize_system
  simp only [jsonDumps, h, if_true]
  split
  · rfl
  · split
    · rfl
    · split <;> rfl

/-- C1 (amended): `analyze_requirements`, `generate_design`, `assess_risks`
and `generate_test_cases` never let an exception escape — every failure
during the provider call or response handling yields a returned Task
Result — for every façade, call environment, provider behavior and input;
`optimize_system` has the same guarantee whenever its configuration mapping
is JSON-serializable.  (Its `json.dumps(system_config)` runs before the
`try` block, so a non-serializable mapping makes it raise; see the
counterexample.) -/
theorem C1_failures_absorbed (e : GenAISystemEngineer) (env : Env)
    (provider : ProviderCall) (jsonLoads : String → Option Json)
    (txt spc dsn sys rq ttyp goal : String) (config : List (String × PyVal))
    (h : configSerializable config = true) :
    (e.analyze_requirements env provider jsonLoads txt).result.okBool = true ∧
    (e.generate_design env provider spc dsn).result.okBool = true ∧
    (e.assess_risks env provider sys).result.okBool = true ∧
    (e.generate_test_cases env provider rq ttyp).result.okBool = true ∧
    (e.optimize_system env provider config goal).result.okBool = true :=
  ⟨analyze_no_raise e env provider jsonLoads txt,
   design_no_raise e env provider spc dsn,
   risks_no_raise e env provider sys,
   tests_no_raise e env provider rq ttyp,
   optimize_no_raise e env provider config goal h⟩

/-- Witness for C1 at a concrete enabled façade, a failing provider and an
empty (serializable) configuration. -/
theorem C1_failures_absorbed_witness :
    (enabledEngineer.analyze_requirements [] (fun _ => Except.error "boom") noParse "x").result.okBool = true ∧
    (enabledEngineer.generate_design [] (fun _ => Except.error "boom") "s" "d").result.okBool = true ∧
    (enabledEngineer.assess_risks [] (fun _ => Except.error "boom") "y").result.okBool = true ∧
    (enabledEngineer.generate_test_cases [] (fun _ => Except.error "boom") "r" "t").result.okBool = true ∧
    (enabledEngineer.optimize_system [] (fun _ => Except.error "boom") [] "g").result.okBool = true :=
  C1_failures_absorbed enabledEngineer [] (fun _ => Except.error "boom") noParse
    "x" "s" "d" "y" "r" "t" "g" [] rfl

/-- C1 counterexample: on an enabled façade, `optimize_system` called with a
configuration mapping holding a Python `set` value raises `TypeError` out of
the method — `json.dumps(system_config, indent=2)` is evaluated before the
`try` block — so the claim that no exception ever propagates past any façade
method boundary is false. -/
theorem C1_counterexample :
    (enabledEngineer.optimize_system [] echoProvider
        [("cache", PyVal.pyset [])] "performance").result =
      Except.error "TypeError: Object of type set is not JSON serializable" := rfl

theorem analyze_result_wf (e : GenAISystemEngineer) (env : Env) (provider : ProviderCall)
    (jsonLoads : String → Option Json) (txt : String) (r : TaskResult)
    (h : (e.analyze_requirements env provider jsonLoads txt).result = Except.ok r) :
    TaskResultWF r := by
  unfold GenAISystemEngineer.analyze_requirements at h
  split at h
  · exact (Except.ok.inj h) ▸ taskResultWF_disabled
  · split at h
    · exact (Except.ok.inj h) ▸ taskResultWF_error _ _
    · split at h
      · exact (Except.ok.inj h) ▸ taskResultWF_error _ _
      · split at h
        · exact (Except.ok.inj h) ▸ taskResultWF_success _ rfl rfl
        · exact (Except.ok.inj h) ▸ taskResultWF_success _ rfl rfl

theorem design_result_wf (e : GenAISystemEngineer) (env : Env) (provider : ProviderCall)
    (spc dsn : String) (r : TaskResult)
    (h : (e.generate_design env provider spc dsn).result = Except.ok r) :
    TaskResultWF r := by
  unfold GenAISystemEngineer.generate_design at h
  split at h
  · exact (Except.ok.inj h) ▸ taskResultWF_disabled
  · split at h
    · exact (Except.ok.inj h) ▸ taskResultWF_error _ _
    · split at h
      · exact (Except.ok.inj h) ▸ taskResultWF_error _ _
      · exact (Except.ok.inj h) ▸ taskResultWF_success _ rfl rfl

theorem risks_result_wf (e : GenAISystemEngineer) (env : Env) (provider : ProviderCall)
    (sys : String) (r : TaskResult)
    (h : (e.assess_risks env provider sys).result = Except.ok r) :
    TaskResultWF r := by
  unfold GenAISystemEngineer.assess_risks at h
  split at h
  · exact (Except.ok.inj h) ▸ taskResultWF_disabled
  · split at h
    · exact (Except.ok.inj h) ▸ taskResultWF_error _ _
    · split at h
      · exact (Except.ok.inj h) ▸ taskResultWF_error _ _
      · exact (Except.ok.inj h) ▸ taskResultWF_success _ rfl rfl

theorem tests_result_wf (e : GenAISystemEngineer) (env : Env) (provider : ProviderCall)
    (rq ttyp : String) (r : TaskResult)
    (h : (e.generate_test_cases env provider rq ttyp).result = Except.ok r) :
    TaskResultWF r := by
  unfold GenAISystemEngineer.generate_test_cases at h
  split at h
  · exact (Except.ok.inj h) ▸ taskResultWF_disabled
  · split at h
    · exact (Except.ok.inj h) ▸ taskResultWF_error _ _
    · split at h
      · exact (Except.ok.inj h) ▸ taskResultWF_error _ _
      · exact (Except.ok.inj h) ▸ taskResultWF_success _ rfl rfl

theorem optimize_result_wf (e : GenAISystemEngineer) (env : Env) (provider : ProviderCall)
    (config : List (String × PyVal)) (goal : String) (r : TaskResult)
    (h : (e.optimize_system env provider config goal).result = Except.ok r) :
    TaskResultWF r := by
  unfold GenAISystemEngineer.optimize_system at h
  split at h
  · exact (Except.ok.inj h) ▸ taskResultWF_disabled
  · split at h
    · exact absurd h (by simp)
    · split at h
      · exact (Except.ok.inj h) ▸ taskResultWF_error _ _
      · split at h
        · exact (Except.ok.inj h) ▸ taskResultWF_error _ _
        · exact (Except.ok.inj h) ▸ taskResultWF_success _ rfl rfl

/-- C5: every Task Result a façade method returns satisfies the shape
invariant: `status` is `"disabled"`, `"error"` or `"success"`; a success
carries no `message`; a disabled or error result carries none of the
success payload keys (`analysis`, `raw_response`, `design`, `design_type`,
`assessment`, `test_cases`, `test_type`, `optimizations`,
`optimization_goal`). -/
theorem C5_result_shape_invariant (e : GenAISystemEngineer) (env : Env)
    (provider : ProviderCall) (jsonLoads : String → Option Json)
    (txt spc dsn sys rq ttyp goal : String) (config : List (String × PyVal))
    (r1 r2 r3 r4 r5 : TaskResult) :
    ((e.analyze_requirements env provider jsonLoads txt).result = Except.ok r1 → TaskResultWF r1) ∧
    ((e.generate_design env provider spc dsn).result = Except.ok r2 → TaskResultWF r2) ∧
    ((e.assess_risks env provider sys).result = Except.ok r3 → TaskResultWF r3) ∧
    ((e.generate_test_cases env provider rq ttyp).result = Except.ok r4 → TaskResultWF r4) ∧
    ((e.optimize_system env provider config goal).result = Except.ok r5 → TaskResultWF r5) :=
  ⟨analyze_result_wf e env provider jsonLoads txt r1,
   design_result_wf e env provider spc dsn r2,
   risks_result_wf e env provider sys r3,
   tests_result_wf e env provider rq ttyp r4,
   optimize_result_wf e env provider config goal r5⟩

/-- Witness for C5: the invariant holds of the concrete disabled result of
`analyze_requirements` on a disabled façade and of the concrete error
result of `generate_design` under a raising provider. -/
theorem C5_result_shape_invariant_witness :
    TaskResultWF disabledResult ∧
    TaskResultWF (errorResult "Error during design generation: " "boom") :=
  ⟨(C5_result_shape_invariant disabledEngineer [] echoProvider noParse
      "x" "s" "d" "y" "r" "t" "g" [] disabledResult disabledResult disabledResult
      disabledResult disabledResult).1 rfl,
   (C5_result_shape_invariant enabledEngineer [] (fun _ => Except.error "boom") noParse
      "x" "s" "d" "y" "r" "t" "g" []
      (errorResult "Error during design generation: " "boom")
      (errorResult "Error during design generation: " "boom")
      (errorResult "Error during design generation: " "boom")
      (errorResult "Error during design generation: " "boom")
      (errorResult "Error during design generation: " "boom")).2.1 (by rfl)⟩

/-- C2: each of the five task endpoints raises HTTP 503 and invokes no
façade method whenever the GenAI module failed to import or the façade
instance is `None`, for every request body; otherwise it invokes the
matching façade method and returns whatever Task Result dictionary the
method returns, verbatim, as the 200 body — in particular `disabled` and
`error` statuses are relayed inside a 200, never turned into HTTP errors. -/
theorem C2_endpoint_gate_and_relay (ga : Bool) (eng : Option GenAISystemEngineer)
    (env : Env) (provider : ProviderCall) (jsonLoads : String → Option Json)
    (txt spc dsn sys rq ttyp goal : String) (config : List (String × Json)) :
    (ga = false ∨ eng = none →
      App.analyze_requirements ga eng env provider jsonLoads txt = unavailableOutcome ∧
      App.generate_design ga eng env provider spc dsn = unavailableOutcome ∧
      App.assess_risks ga eng env provider sys = unavailableOutcome ∧
      App.generate_test_cases ga eng env provider rq ttyp = unavailableOutcome ∧
      App.optimize_system ga eng env provider config goal = unavailableOutcome) ∧
    (∀ e, ga = true → eng = some e →
      (∀ r, (e.analyze_requirements env provider jsonLoads txt).result = Except.ok r →
        App.analyze_requirements ga eng env provider jsonLoads txt = ⟨.ok r, true⟩) ∧
      (∀ r, (e.generate_design env provider spc dsn).result = Except.ok r →
        App.generate_design ga eng env provider spc dsn = ⟨.ok r, true⟩) ∧
      (∀ r, (e.assess_risks env provider sys).result = Except.ok r →
        App.assess_risks ga eng env provider sys = ⟨.ok r, true⟩) ∧
      (∀ r, (e.generate_test_cases env provider rq ttyp).result = Except.ok r →
        App.generate_test_cases ga eng env provider rq ttyp = ⟨.ok r, true⟩) ∧
      (∀ r, (e.optimize_system env provider
              (config.map (fun p => (p.1, PyVal.json p.2))) goal).result = Except.ok r →
        App.optimize_system ga eng env provider config goal = ⟨.ok r, true⟩)) := by
  constructor
  · intro h
    rcases h with h | h
    · subst h
      cases eng <;>
        simp [App.analyze_requirements, App.generate_design, App.assess_risks,
          App.generate_test_cases, App.optimize_system, unavailableOutcome]
    · subst h
      cases ga <;>
        simp [App.analyze_requirements, App.generate_design, App.assess_risks,
          App.generate_test_cases, App.optimize_system, unavailableOutcome]
  · intro e hga he
    subst hga
    subst he
    refine ⟨?_, ?_, ?_, ?_, ?_⟩ <;> intro r h <;>
      simp [App.analyze_requirements, App.generate_design, App.assess_risks,
        App.generate_test_cases, App.optimize_system, relay, h]

/-- Witness for C2: with the module missing the analysis endpoint answers
503 without touching the façade; with a present (but unconfigured) façade
the endpoint relays the `disabled` Task Result inside a 200. -/
theorem C2_endpoint_gate_and_relay_witness :
    App.analyze_requirements false none [] echoProvider noParse "x" = unavailableOutcome ∧
    App.analyze_requirements true (some disabledEngineer) [] echoProvider noParse "x" =
      ⟨TaskHttpResponse.ok disabledResult, true⟩ :=
  ⟨((C2_endpoint_gate_and_relay false none [] echoProvider noParse
      "x" "s" "d" "y" "r" "t" "g" []).1 (Or.inl rfl)).1,
   (((C2_endpoint_gate_and_relay true (some disabledEngineer) [] echoProvider noParse
      "x" "s" "d" "y" "r" "t" "g" []).2 disabledEngineer rfl rfl).1 disabledResult rfl)⟩

/-- C4: on an enabled façade, when the provider call of
`analyze_requirements` returns text, the raw text is always kept verbatim
under `raw_response`; the text is fed to `json.loads`; on a successful parse
the success result carries the structured value under `analysis` together
with the raw text; on a parse failure the success result carries the raw
text itself as the payload, with no error raised or reported. -/
theorem C4_analysis_parse_fallback (e : GenAISystemEngineer) (env : Env)
    (provider : ProviderCall) (jsonLoads : String → Option Json)
    (txt raw : String) (mt : Int)
    (hen : e.enabled = true) (hmt : genaiMaxTokens env = Except.ok mt)
    (hp : provider (e.analyzeRequest mt txt) = Except.ok raw) :
    (jsonLoads raw = none →
      e.analyze_requirements env provider jsonLoads txt =
        ⟨Except.ok { TaskResult.base "success" with
            analysis := some (.text raw), raw_response := some raw },
         some (e.analyzeRequest mt txt)⟩) ∧
    (∀ js, jsonLoads raw = some js →
      e.analyze_requirements env provider jsonLoads txt =
        ⟨Except.ok { TaskResult.base "success" with
            analysis := some (.parsed js), raw_response := some raw },
         some (e.analyzeRequest mt txt)⟩) := by
  constructor
  · intro hj
    simp [GenAISystemEngineer.analyze_requirements, GenAISystemEngineer.is_enabled,
      hen, hmt, hp, hj]
  · intro js hj
    simp [GenAISystemEngineer.analyze_requirements, GenAISystemEngineer.is_enabled,
      hen, hmt, hp, hj]

/-- Witness for C4 on a concrete enabled façade: one run whose provider text
fails `json.loads` and one whose text parses to JSON `null`. -/
theorem C4_analysis_parse_fallback_witness :
    (enabledEngineer.analyze_requirements [] echoProvider noParse "reqs" =
      ⟨Except.ok { TaskResult.base "success" with
          analysis := some (.text "model output"), raw_response := some "model output" },
       some (enabledEngineer.analyzeRequest 2000 "reqs")⟩) ∧
    (enabledEngineer.analyze_requirements [] echoProvider yesParse "reqs" =
      ⟨Except.ok { TaskResult.base "success" with
          analysis := some (.parsed Json.null), raw_response := some "model output" },
       some (enabledEngineer.analyzeRequest 2000 "reqs")⟩) :=
  ⟨(C4_analysis_parse_fallback enabledEngineer [] echoProvider noParse
      "reqs" "model output" 2000 (by rfl) (by rfl) (by rfl)).1 rfl,
   (C4_analysis_parse_fallback enabledEngineer [] echoProvider yesParse
      "reqs" "model output" 2000 (by rfl) (by rfl) (by rfl)).2 Json.null rfl⟩

/-- C6: for every state `app.py` can start in (module import failed; façade
present but disabled; façade enabled), `GET /genai/status` returns a plain
body — modelled as a total function, it cannot throw — whose `enabled`
field is the boolean availability of the façade, whose `message` is a
nonempty string, and whose `model` key is present exactly when the façade
instance exists and reports itself enabled, in which case it is the
configured model identifier. -/
theorem C6_status_never_errors (import_ok oa : Bool) (env : Env) :
    (genai_status (initApp import_ok oa env).genai_available
        (initApp import_ok oa env).genai_engineer).enabled
      = (import_ok && (GenAISystemEngineer.init oa env none).enabled) ∧
    (genai_status (initApp import_ok oa env).genai_available
        (initApp import_ok oa env).genai_engineer).model
      = (if import_ok && (GenAISystemEngineer.init oa env none).enabled
         then some (GenAISystemEngineer.init oa env none).model else none) ∧
    0 < (genai_status (initApp import_ok oa env).genai_available
        (initApp import_ok oa env).genai_engineer).message.length := by
  cases import_ok
  · refine ⟨by simp [initApp, genai_status], by simp [initApp, genai_status], ?_⟩
    simp [initApp, genai_status]
    decide
  · cases he : (GenAISystemEngineer.init oa env none).enabled
    · refine ⟨?_, ?_, ?_⟩
      · simp [initApp, genai_status, create_genai_engineer,
          GenAISystemEngineer.is_enabled, he]
      · simp [initApp, genai_status, create_genai_engineer,
          GenAISystemEngineer.is_enabled, he]
      · simp [initApp, genai_status, create_genai_engineer,
          GenAISystemEngineer.is_enabled, he]
        decide
    · refine ⟨?_, ?_, ?_⟩
      · simp [initApp, genai_status, create_genai_engineer,
          GenAISystemEngineer.is_enabled, he]
      · simp [initApp, genai_status, create_genai_engineer,
          GenAISystemEngineer.is_enabled, he]
      · simp [initApp, genai_status, create_genai_engineer,
          GenAISystemEngineer.is_enabled, he]
        decide

/-- C7: on an enabled façade, `generate_design` called with no
`design_type` argument uses the Python default `"architecture"`, and a
successful provider call yields a Task Result whose `design_type` field is
`"architecture"`. -/
theorem C7_design_type_defaults_to_architecture (e : GenAISystemEngineer)
    (env : Env) (provider : ProviderCall) (spc raw : String) (mt : Int)
    (hen : e.enabled = true) (hmt : genaiMaxTokens env = Except.ok mt)
    (hp : provider (e.designRequest mt spc "architecture") = Except.ok raw) :
    e.generate_design_default env provider spc =
      ⟨Except.ok { TaskResult.base "success" with
          design := some raw, design_type := some "architecture" },
       some (e.designRequest mt spc "architecture")⟩ := by
  unfold GenAISystemEngineer.generate_design_default
  simp [GenAISystemEngineer.generate_design, GenAISystemEngineer.is_enabled,
    hen, hmt, hp]

/-- Witness for C7 on a concrete enabled façade and provider. -/
theorem C7_design_type_defaults_to_architecture_witness :
    enabledEngineer.generate_design_default [] echoProvider "spec text" =
      ⟨Except.ok { TaskResult.base "success" with
          design := some "model output", design_type := some "architecture" },
       some (enabledEngineer.designRequest 2000 "spec text" "architecture")⟩ :=
  C7_design_type_defaults_to_architecture enabledEngineer [] echoProvider
    "spec text" "model output" 2000 (by rfl) (by rfl) (by rfl)

theorem lookupActivity_updateActivity (acts : List (String × Activity))
    (name : String) (b : Activity) (h : (lookupActivity acts name).isSome = true) :
    lookupActivity (updateActivity acts name b) name = some b := by
  induction acts with
  | nil => simp [lookupActivity, List.find?] at h
  | cons p rest ih =>
    by_cases hk : p.1 == name
    · simp [lookupActivity, updateActivity, List.find?, hk]
    · simp only [lookupActivity, updateActivity, List.map_cons, List.find?, hk,
        if_neg] at h ⊢
      simp only [hk, Bool.false_eq_true, reduceIte] at h ⊢
      exact ih (by simpa [lookupActivity] using h)

/-- C8: posting a signup for an existing activity key appends the email to
that activity's participant list unconditionally — so a repeated signup of
the same email appends a duplicate entry — and answers the success message;
posting to a key not in the store raises HTTP 404 and returns the store
unchanged. -/
theorem C8_signup_append_or_404 (acts : List (String × Activity))
    (name email : String) :
    (∀ act, lookupActivity acts name = some act →
      signup_for_activity acts name email =
        (SignupResponse.ok ("Signed up " ++ email ++ " for " ++ name),
         updateActivity acts name
           { act with participants := act.participants ++ [email] }) ∧
      lookupActivity (signup_for_activity acts name email).2 name =
        some { act with participants := act.participants ++ [email] }) ∧
    (lookupActivity acts name = none →
      signup_for_activity acts name email =
        (SignupResponse.httpError 404 "Activity not found", acts)) := by
  constructor
  · intro act h
    constructor
    · simp [signup_for_activity, h]
    · simp only [signup_for_activity, h]
      exact lookupActivity_updateActivity acts name _ (by simp [h])
  · intro h
    simp [signup_for_activity, h]

/-- Witness for C8: signing an already-signed-up email into the seeded
Chess Club appends a duplicate entry; signing up for an absent key yields
404 and the untouched store. -/
theorem C8_signup_append_or_404_witness :
    (signup_for_activity activities "Chess Club" "michael@mergington.edu" =
      (SignupResponse.ok ("Signed up " ++ "michael@mergington.edu" ++ " for " ++ "Chess Club"),
       updateActivity activities "Chess Club"
         ⟨"Learn strategies and compete in chess tournaments",
          "Fridays, 3:30 PM - 5:00 PM", 12,
          ["michael@mergington.edu", "daniel@mergington.edu"] ++ ["michael@mergington.edu"]⟩) ∧
     lookupActivity (signup_for_activity activities "Chess Club" "michael@mergington.edu").2
         "Chess Club" =
       some ⟨"Learn strategies and compete in chess tournaments",
          "Fridays, 3:30 PM - 5:00 PM", 12,
          ["michael@mergington.edu", "daniel@mergington.edu"] ++ ["michael@mergington.edu"]⟩) ∧
    signup_for_activity activities "Missing Club" "a@mergington.edu" =
      (SignupResponse.httpError 404 "Activity not found", activities) :=
  ⟨(C8_signup_append_or_404 activities "Chess Club" "michael@mergington.edu").1
      ⟨"Learn strategies and compete in chess tournaments",
       "Fridays, 3:30 PM - 5:00 PM", 12,
       ["michael@mergington.edu", "daniel@mergington.edu"]⟩ (by rfl),
   (C8_signup_append_or_404 activities "Missing Club" "a@mergington.edu").2 (by rfl)⟩

theorem analyze_request_fields (e : GenAISystemEngineer) (env : Env)
    (provider : ProviderCall) (jsonLoads : String → Option Json) (txt : String)
    (p : ProviderRequest)
    (h : (e.analyze_requirements env provider jsonLoads txt).request = some p) :
    p.model = e.model ∧ p.temperature = e.temperature ∧
      genaiMaxTokens env = Except.ok p.max_tokens := by
  unfold GenAISystemEngineer.analyze_requirements at h
  split at h
  · simp at h
  · split at h
    · simp at h
    rename_i mt heq
    split at h
    · cases Option.some.inj h
      exact ⟨rfl, rfl, heq⟩
    split at h
    · cases Option.some.inj h
      exact ⟨rfl, rfl, heq⟩
    · cases Option.some.inj h
      exact ⟨rfl, rfl, heq⟩

theorem design_request_fields (e : GenAISystemEngineer) (env : Env)
    (provider : ProviderCall) (spc dsn : String) (p : ProviderRequest)
    (h : (e.generate_design env provider spc dsn).request = some p) :
    p.model = e.model ∧ p.temperature = e.temperature ∧
      genaiMaxTokens env = Except.ok p.max_tokens := by
  unfold GenAISystemEngineer.generate_design at h
  split at h
  · simp at h
  · split at h
    · simp at h
    rename_i mt heq
    split at h
    · cases Option.some.inj h
      exact ⟨rfl, rfl, heq⟩
    · cases Option.some.inj h
      exact ⟨rfl, rfl, heq⟩

theorem risks_request_fields (e : GenAISystemEngineer) (env : Env)
    (provider : ProviderCall) (sys : String) (p : ProviderRequest)
    (h : (e.assess_risks env provider sys).request = some p) :
    p.model = e.model ∧ p.temperature = e.temperature ∧
      genaiMaxTokens env = Except.ok p.max_tokens := by
  unfold GenAISystemEngineer.assess_risks at h
  split at h
  · simp at h
  · split at h
    · simp at h
    rename_i mt heq
    split at h
    · cases Option.some.inj h
      exact ⟨rfl, rfl, heq⟩
    · cases Option.some.inj h
      exact ⟨rfl, rfl, heq⟩

theorem tests_request_fields (e : GenAISystemEngineer) (env : Env)
    (provider : ProviderCall) (rq ttyp : String) (p : ProviderRequest)
    (h : (e.generate_test_cases env provider rq ttyp).request = some p) :
    p.model = e.model ∧ p.temperature = e.temperature ∧
      genaiMaxTokens env = Except.ok p.max_tokens := by
  unfold GenAISystemEngineer.generate_test_cases at h
  split at h
  · simp at h
  · split at h
    · simp at h
    rename_i mt heq
    split at h
    · cases Option.some.inj h
      exact ⟨rfl, rfl, heq⟩
    · cases Option.some.inj h
      exact ⟨rfl, rfl, heq⟩

theorem optimize_request_fields (e : GenAISystemEngineer) (env : Env)
    (provider : ProviderCall) (config : List (String × PyVal)) (goal : String)
    (p : ProviderRequest)
    (h : (e.optimize_system env provider config goal).request = some p) :
    p.model = e.model ∧ p.temperature = e.temperature ∧
      genaiMaxTokens env = Except.ok p.max_tokens := by
  unfold GenAISystemEngineer.optimize_system at h
  split at h
  · simp at h
  · split at h
    · simp at h
    · split at h
      · simp at h
      rename_i mt heq
      split at h
      · cases Option.some.inj h
        exact ⟨rfl, rfl, heq⟩
      · cases Option.some.inj h
        exact ⟨rfl, rfl, heq⟩

/-- C9 (amended): the façade's `api_key`, `model`, `temperature`, `client`
and `enabled` are set at construction and never mutated (the embedding is a
pure value each method only reads), and every provider call a task method
issues uses exactly the construction-time `model` and `temperature` of the
instance; the max-token budget, however, is NOT construction-time state:
each call parses `GENAI_MAX_TOKENS` from the environment as seen at call
time, with default `"2000"`. -/
theorem C9_config_fixed_except_token_budget (e : GenAISystemEngineer)
    (env : Env) (provider : ProviderCall) (jsonLoads : String → Option Json)
    (txt spc dsn sys rq ttyp goal : String) (config : List (String × PyVal)) :
    (∀ p, (e.analyze_requirements env provider jsonLoads txt).request = some p →
      p.model = e.model ∧ p.temperature = e.temperature ∧
        genaiMaxTokens env = Except.ok p.max_tokens) ∧
    (∀ p, (e.generate_design env provider spc dsn).request = some p →
      p.model = e.model ∧ p.temperature = e.temperature ∧
        genaiMaxTokens env = Except.ok p.max_tokens) ∧
    (∀ p, (e.assess_risks env provider sys).request = some p →
      p.model = e.model ∧ p.temperature = e.temperature ∧
        genaiMaxTokens env = Except.ok p.max_tokens) ∧
    (∀ p, (e.generate_test_cases env provider rq ttyp).request = some p →
      p.model = e.model ∧ p.temperature = e.temperature ∧
        genaiMaxTokens env = Except.ok p.max_tokens) ∧
    (∀ p, (e.optimize_system env provider config goal).request = some p →
      p.model = e.model ∧ p.temperature = e.temperature ∧
        genaiMaxTokens env = Except.ok p.max_tokens) :=
  ⟨fun p => analyze_request_fields e env provider jsonLoads txt p,
   fun p => design_request_fields e env provider spc dsn p,
   fun p => risks_request_fields e env provider sys p,
   fun p => tests_request_fields e env provider rq ttyp p,
   fun p => optimize_request_fields e env provider config goal p⟩

/-- Witness for C9 on a concrete enabled façade and empty call environment:
the issued analysis request carries the instance's model and temperature and
the default 2000-token budget parsed at call time. -/
theorem C9_config_fixed_except_token_budget_witness :
    (enabledEngineer.analyzeRequest 2000 "x").model = enabledEngineer.model ∧
    (enabledEngineer.analyzeRequest 2000 "x").temperature = enabledEngineer.temperature ∧
    genaiMaxTokens [] = Except.ok (enabledEngineer.analyzeRequest 2000 "x").max_tokens :=
  (C9_config_fixed_except_token_budget enabledEngineer [] echoProvider noParse
      "x" "s" "d" "y" "r" "t" "g" []).1
    (enabledEngineer.analyzeRequest 2000 "x") (by rfl)

/-- A façade constructed in an environment that pins `GENAI_MAX_TOKENS`
to `"2000"` (and has a key, so it is enabled). -/
def c9Engineer : GenAISystemEngineer :=
  GenAISystemEngineer.init true
    [("OPENAI_API_KEY", "test-key"), ("GENAI_MAX_TOKENS", "2000")] none

/-- C9 counterexample: the very same façade instance, called under two
different call-time environments, issues provider calls with two different
max-token budgets (5 and 7) — neither of them the construction-time value
2000 — so the token budget is re-read from the environment on each call
rather than fixed at construction, contradicting the claim. -/
theorem C9_counterexample :
    ((c9Engineer.analyze_requirements [("GENAI_MAX_TOKENS", "5")] echoProvider
        noParse "x").request.map ProviderRequest.max_tokens = some 5) ∧
    ((c9Engineer.analyze_requirements [("GENAI_MAX_TOKENS", "7")] echoProvider
        noParse "x").request.map ProviderRequest.max_tokens = some 7) :=
  ⟨rfl, rfl⟩

/-- The store with every activity's `max_participants` overwritten by `m`;
used to state that no operation reads that field. -/
def setMax (acts : List (String × Activity)) (m : Nat) : List (String × Activity) :=
  acts.map (fun p => (p.1, { p.2 with max_participants := m }))

theorem lookupActivity_setMax (acts : List (String × Activity)) (m : Nat)
    (name : String) :
    lookupActivity (setMax acts m) name =
      (lookupActivity acts name).map (fun a => { a with max_participants := m }) := by
  induction acts with
  | nil => rfl
  | cons p rest ih =>
    by_cases hk : p.1 == name
    · simp [setMax, lookupActivity, List.find?, hk]
    · simpa [setMax, lookupActivity, List.find?, hk] using ih

theorem updateActivity_setMax (acts : List (String × Activity)) (m : Nat)
    (name : String) (b : Activity) :
    updateActivity (setMax acts m) name { b with max_participants := m } =
      setMax (updateActivity acts name b) m := by
  induction acts with
  | nil => rfl
  | cons p rest ih =>
    show (if p.1 == name then (p.1, { b with max_participants := m })
          else (p.1, { p.2 with max_participants := m })) ::
           updateActivity (setMax rest m) name { b with max_participants := m }
       = ((if p.1 == name then (p.1, b) else p).1,
          { (if p.1 == name then (p.1, b) else p).2 with max_participants := m }) ::
           setMax (updateActivity rest name b) m
    rw [ih]
    cases hk : (p.1 == name)
    · rfl
    · rfl

/-- C10: the signup endpoint never enforces capacity — for an existing key
it appends and answers success even when the participant list is already at
or past `max_participants` — and `max_participants` is dead data: both
signup (response and resulting store) and `GET /activities` commute with
overwriting every `max_participants` value. -/
theorem C10_capacity_never_enforced (acts : List (String × Activity))
    (name email : String) (m : Nat) :
    (∀ act, lookupActivity acts name = some act →
      act.max_participants ≤ act.participants.length →
      signup_for_activity acts name email =
        (SignupResponse.ok ("Signed up " ++ email ++ " for " ++ name),
         updateActivity acts name
           { act with participants := act.participants ++ [email] })) ∧
    (signup_for_activity (setMax acts m) name email).1 =
      (signup_for_activity acts name email).1 ∧
    (signup_for_activity (setMax acts m) name email).2 =
      setMax (signup_for_activity acts name email).2 m ∧
    get_activities (setMax acts m) = setMax (get_activities acts) m := by
  refine ⟨?_, ?_, ?_, rfl⟩
  · intro act h _
    simp [signup_for_activity, h]
  · cases hl : lookupActivity acts name with
    | none => simp [signup_for_activity, lookupActivity_setMax, hl]
    | some act => simp [signup_for_activity, lookupActivity_setMax, hl]
  · cases hl : lookupActivity acts name with
    | none => simp [signup_for_activity, lookupActivity_setMax, hl]
    | some act =>
      simp only [signup_for_activity, lookupActivity_setMax, hl, Option.map_some]
      exact updateActivity_setMax acts m name
        { act with participants := act.participants ++ [email] }

/-- Witness for C10: a store whose only activity has capacity 1 and two
participants already; signup still appends a third and reports success. -/
def overfullActivities : List (String × Activity) :=
  [("Chess Club",
    ⟨"Learn strategies and compete in chess tournaments",
     "Fridays, 3:30 PM - 5:00 PM", 1,
     ["a@mergington.edu", "b@mergington.edu"]⟩)]

/-- Witness for C10 at the over-capacity store. -/
theorem C10_capacity_never_enforced_witness :
    signup_for_activity overfullActivities "Chess Club" "c@mergington.edu" =
      (SignupResponse.ok ("Signed up " ++ "c@mergington.edu" ++ " for " ++ "Chess Club"),
       updateActivity overfullActivities "Chess Club"
         ⟨"Learn strategies and compete in chess tournaments",
          "Fridays, 3:30 PM - 5:00 PM", 1,
          ["a@mergington.edu", "b@mergington.edu"] ++ ["c@mergington.edu"]⟩) :=
  (C10_capacity_never_enforced overfullActivities "Chess Club" "c@mergington.edu" 0).1
    ⟨"Learn strategies and compete in chess tournaments",
     "Fridays, 3:30 PM - 5:00 PM", 1,
     ["a@mergington.edu", "b@mergington.edu"]⟩ (by rfl) (by decide)
